import Mathlib

/-!
Verification of the M-Heath-Annotator core against its specification.

The definitions below are a shallow embedding of the Python sources:
  backend/core/db_manager.py      (DatabaseManager)
  backend/core/worker.py          (AnnotationWorker)
  backend/core/rate_limiter.py    (RateLimiter)
  backend/core/parser.py          (ResponseParser)
  backend/utils/file_operations.py

Conventions used throughout the embedding:
  - SQL rows become Lean structures; tables become lists of rows.
  - Timestamps are abstract and passed in as parameters (the database
    CURRENT_TIMESTAMP and Python wall-clock reads become explicit
    arguments named now or today).
  - Python floats are modelled as rationals.
  - Python strings are modelled as Lean String, except inside the parser
    where List Char makes the character scans structural.
  - External library calls (the json library, the Gemini client, OS
    process liveness) are passed in as function parameters.
-/

namespace MHA

/-- Status column of the workers table.  The Python code stores plain
strings; the six values below are the only ones written by the sources. -/
inductive WStatus where
  | not_started
  | running
  | paused
  | stopped
  | completed
  | crashed
  deriving DecidableEq, Repr

/-- Row of the workers table (db_schema / db_manager.py), restricted to the
columns the claims mention.  Timestamps are abstract Nat instants. -/
structure WorkerRow where
  annotator_id : Nat
  domain : String
  enabled : Bool
  target_count : Nat
  status : WStatus
  pid : Option Nat
  started_at : Option Nat
  stopped_at : Option Nat
  last_updated : Option Nat
  total_completed : Nat
  total_malformed : Nat
  samples_per_min : ℚ
  last_speed_check : Option Nat
  deriving DecidableEq, Repr

/-- Python truthiness of the optional pid argument of update_worker_status:
None and 0 are falsy, every other int is truthy. -/
def pidTruthy : Option Nat → Bool
  | none => false
  | some p => p ≠ 0

/-- Embedding of DatabaseManager.update_worker_status (db_manager.py,
lines 168-199), acting on one worker row.  The WorkerEvent insert is
modelled separately at the database level. -/
def update_worker_status (now : Nat) (status : WStatus) (pid : Option Nat)
    (w : WorkerRow) : WorkerRow :=
  if status = .running ∧ pidTruthy pid then
    { w with status := status, pid := pid, started_at := some now,
             last_updated := some now }
  else if status = .stopped ∨ status = .completed ∨ status = .crashed then
    { w with status := status, pid := none, stopped_at := some now,
             last_updated := some now }
  else
    { w with status := status, last_updated := some now }

/-- Row of the completed_samples table for one worker:
(sample_id, label, is_malformed).  The table has a unique index on
(worker_id, sample_id). -/
structure ProgressState where
  rows : List (String × String × Bool)
  total_completed : Nat
  total_malformed : Nat
  deriving DecidableEq, Repr

/-- Membership test backing INSERT OR IGNORE on the (worker_id, sample_id)
unique index, for a fixed worker. -/
def hasSample (rows : List (String × String × Bool)) (sampleId : String) : Bool :=
  rows.any (fun r => r.1 = sampleId)

/-- Embedding of DatabaseManager.add_completed_sample (db_manager.py,
lines 292-328): INSERT OR IGNORE into completed_samples, then an
unconditional increment of total_malformed or total_completed. -/
def add_completed_sample (sampleId label : String) (malformed : Bool)
    (s : ProgressState) : ProgressState :=
  let rows' := if hasSample s.rows sampleId then s.rows
               else s.rows ++ [(sampleId, label, malformed)]
  if malformed then
    { rows := rows', total_completed := s.total_completed,
      total_malformed := s.total_malformed + 1 }
  else
    { rows := rows', total_completed := s.total_completed + 1,
      total_malformed := s.total_malformed }

/-- Heartbeat freshness used by get_worker_status (db_manager.py,
lines 233-237): the SQL CASE yields 0 when there is no heartbeat row or
when the age in minutes exceeds 2, and 1 otherwise.  Heartbeat times and
the current instant are rationals measured in days, matching the
JULIANDAY difference that the query multiplies by 1440. -/
def heartbeatAlive (now : ℚ) (hb : Option ℚ) : Bool :=
  match hb with
  | none => false
  | some t => ¬((now - t) * 1440 > 2)

/-- Snapshot returned by DatabaseManager.get_worker_status, restricted to
the fields the claims mention. -/
structure StatusSnapshot where
  status : WStatus
  heartbeat_alive : Bool
  stale : Bool
  running : Bool
  progress_completed : Nat
  progress_target : Nat
  progress_malformed : Nat
  deriving DecidableEq, Repr

/-- Embedding of DatabaseManager.get_worker_status (db_manager.py, lines
212-274).  The Python method runs a single SELECT and edits only the
returned dictionary, so the embedding returns the snapshot together with
the unchanged stored row and heartbeat. -/
def get_worker_status (now : ℚ) (w : WorkerRow) (hb : Option ℚ) :
    StatusSnapshot × (WorkerRow × Option ℚ) :=
  let alive := heartbeatAlive now hb
  let derived := if w.status = .running ∧ ¬alive then WStatus.crashed else w.status
  ({ status := derived,
     heartbeat_alive := alive,
     stale := decide (w.status = .running ∧ ¬alive),
     running := decide (derived = .running ∧ alive),
     progress_completed := w.total_completed,
     progress_target := w.target_count,
     progress_malformed := w.total_malformed },
   (w, hb))

/-- Embedding of DatabaseManager.get_all_running_workers (db_manager.py,
lines 491-514).  The OS process-liveness check of _is_process_running is
passed in as the oracle alive on pids.  Workers whose stored status is
running with a non-null pid are selected; each selected worker whose
process is dead is updated to crashed via update_worker_status.  The
heartbeat table is not consulted.  Selection of a row by the SQL query:
stored status running with a non-null pid. -/
def garwSelected (w : WorkerRow) : Bool :=
  decide (w.status = .running) && w.pid.isSome

/-- Process-liveness of one worker row under the oracle alive. -/
def garwProcAlive (alive : Nat → Bool) (w : WorkerRow) : Bool :=
  match w.pid with
  | some p => alive p
  | none => false

/-- Store-side effect of get_all_running_workers on one worker row: a
selected row whose process is dead is updated to crashed, every other row
is untouched. -/
def garwUpdate (alive : Nat → Bool) (now : Nat) (w : WorkerRow) : WorkerRow :=
  if garwSelected w && !garwProcAlive alive w then
    update_worker_status now .crashed none w
  else w

/-- Embedding of DatabaseManager.get_all_running_workers continued:
the returned list and the updated workers table. -/
def get_all_running_workers (alive : Nat → Bool) (now : Nat)
    (ws : List WorkerRow) : List WorkerRow × List WorkerRow :=
  (ws.filter (fun w => garwSelected w && garwProcAlive alive w),
   ws.map (garwUpdate alive now))

/-- Row of the annotations table, restricted to the columns the claims
mention. -/
structure AnnotationRow where
  sample_id : String
  sample_text : String
  label : String
  is_malformed : Bool
  parsing_error : Option String
  validity_error : Option String
  deriving DecidableEq, Repr

/-- Whole database state as touched by factory_reset: the workers table
and the five tables that the reset deletes, plus the system_state
key-value strip. -/
structure DBState where
  workers : List WorkerRow
  completed_samples : List (Nat × String × String × Bool)
  annotations : List (Nat × AnnotationRow)
  heartbeats : List (Nat × ℚ)
  worker_events : List (Nat × WStatus)
  rate_limiter_state : List (String × String)
  system_state : List (String × Nat)
  deriving DecidableEq, Repr

/-- Worker-row part of the factory reset UPDATE (db_manager.py, lines
645-656): status to not_started, pid / started_at / stopped_at /
last_speed_check to NULL, counters and speed to zero, last_updated to the
current timestamp; the remaining columns, in particular enabled and
target_count, are not mentioned by the UPDATE and keep their values. -/
def resetWorkerRow (now : Nat) (w : WorkerRow) : WorkerRow :=
  { w with status := .not_started, pid := none, started_at := none,
           stopped_at := none, total_completed := 0, total_malformed := 0,
           samples_per_min := 0, last_speed_check := none,
           last_updated := some now }

/-- INSERT OR REPLACE into system_state on its key column. -/
def upsertSystemState (k : String) (v : Nat) (l : List (String × Nat)) :
    List (String × Nat) :=
  l.filter (fun p => p.1 ≠ k) ++ [(k, v)]

/-- Lookup in the system_state strip. -/
def lookupSystemState (k : String) (l : List (String × Nat)) : Option Nat :=
  (l.find? (fun p => p.1 = k)).map (fun p => p.2)

/-- Embedding of DatabaseManager.factory_reset (db_manager.py, lines
631-665): DELETE FROM the five progress tables, the worker-row reset
UPDATE, and the INSERT OR REPLACE of the last_factory_reset timestamp. -/
def factory_reset (now : Nat) (db : DBState) : DBState :=
  { workers := db.workers.map (resetWorkerRow now),
    completed_samples := [],
    annotations := [],
    heartbeats := [],
    worker_events := [],
    rate_limiter_state := [],
    system_state := upsertSystemState "last_factory_reset" now db.system_state }

/-- Persisted per-credential state of the rate limiter
(rate_limiter.py, _load_state).  Instants are rationals in seconds;
the UTC calendar date is an abstract string as in the JSON state file. -/
structure RLState where
  tokens : ℚ
  last_refill : ℚ
  requests_today : Nat
  day_start : String
  total_requests : Nat
  last_request : Option ℚ
  deriving DecidableEq, Repr

/-- Embedding of RateLimiter._refill_tokens (rate_limiter.py, lines
82-98): add elapsed-time tokens at rpm/60 per second, clamped to the
burst size, and stamp last_refill. -/
def refill_tokens (rpm : Nat) (burst : ℚ) (now : ℚ) (s : RLState) : RLState :=
  { s with tokens := min (s.tokens + (now - s.last_refill) * ((rpm : ℚ) / 60)) burst,
           last_refill := now }

/-- Embedding of RateLimiter._check_daily_limit (rate_limiter.py, lines
100-110): reset the counter on the local copy when the date changed, then
compare against the daily cap.  Returns the mutated local copy and the
boolean; the caller can_make_request never persists the copy. -/
def check_daily_limit (rpd : Nat) (today : String) (s : RLState) :
    RLState × Bool :=
  let s' := if s.day_start ≠ today then
              { s with day_start := today, requests_today := 0 }
            else s
  (s', decide (s'.requests_today < rpd))

/-- Embedding of RateLimiter.can_make_request (rate_limiter.py, lines
112-138).  The function loads the persisted state, refills and applies the
daily check on in-memory copies, and returns (can_proceed, wait_time)
without any _save_state call: the persisted state is unchanged. -/
def can_make_request (rpm rpd : Nat) (burst : ℚ) (now : ℚ) (today : String)
    (persisted : RLState) : Bool × Option ℚ :=
  let st := refill_tokens rpm burst now persisted
  let (st', okDaily) := check_daily_limit rpd today st
  if ¬okDaily then (false, none)
  else if st'.tokens ≥ 1 then (true, some 0)
  else (false, some ((1 - st'.tokens) / ((rpm : ℚ) / 60)))

/-- Embedding of RateLimiter.consume_token (rate_limiter.py, lines
210-228): reload the persisted state, refill, deduct one token clamped at
zero, increment requests_today and total_requests, stamp last_request, and
persist the result.  Note that the daily-rollover reset of
check_daily_limit is not applied here: day_start and the loaded
requests_today come straight from the persisted state. -/
def consume_token (rpm : Nat) (burst : ℚ) (now : ℚ) (persisted : RLState) :
    RLState :=
  let st := refill_tokens rpm burst now persisted
  { st with tokens := max 0 (st.tokens - 1),
            requests_today := st.requests_today + 1,
            total_requests := st.total_requests + 1,
            last_request := some now }

/-- Single iteration of RateLimiter.acquire_sync (rate_limiter.py, lines
175-208) at one instant: query can_make_request on the persisted state
and, when it allows, run consume_token (which reloads the persisted
state).  Returns whether a token was acquired and the new persisted
state. -/
def acquireStep (rpm rpd : Nat) (burst : ℚ) (now : ℚ) (today : String)
    (persisted : RLState) : Bool × RLState :=
  match can_make_request rpm rpd burst now today persisted with
  | (true, _) => (true, consume_token rpm burst now persisted)
  | (false, _) => (false, persisted)

/-- Prompt overlay layers visible to the resolution code for one
(annotator, domain) pair.  Each field is the content of the file when the
layer exists: activeVersion is the version file named by
active_versions.json (when both the mapping entry and the file exist),
overrideLayer is the legacy per-annotator override file, baseLayer the
base template. -/
structure PromptFS where
  activeVersion : Option String
  overrideLayer : Option String
  baseLayer : Option String
  deriving DecidableEq, Repr

/-- Embedding of AnnotationWorker.load_prompt (worker.py, lines 137-167):
the worker checks the legacy override file first and otherwise falls back
to the base template, raising FileNotFoundError when the base file is
missing.  The active-version layer is never consulted here. -/
def load_prompt (p : PromptFS) : Except Unit String :=
  match p.overrideLayer with
  | some c => .ok c
  | none =>
    match p.baseLayer with
    | some c => .ok c
    | none => .error ()

/-- Embedding of ConfigService.get_prompt (config_service.py, lines
125-193), restricted to the returned content: active version first, then
the legacy override, then the base template. -/
def config_get_prompt (p : PromptFS) : Except Unit String :=
  match p.activeVersion with
  | some c => .ok c
  | none =>
    match p.overrideLayer with
    | some c => .ok c
    | none =>
      match p.baseLayer with
      | some c => .ok c
      | none => .error ()

/-- State carried by the worker main loop as far as the claims observe it:
the progress part of the store (completed_samples rows plus the two
counters of the workers row), the persisted worker status, and the
annotations written so far as (sample_id, label, malformed) triples. -/
structure LoopState where
  progress : ProgressState
  status : WStatus
  annotations : List (String × String × Bool)
  deriving DecidableEq, Repr

/-- Embedding of AnnotationWorker.get_next_sample (worker.py, lines
169-189): read total_completed from the store, return none once it
reaches target_count, otherwise fetch the corpus sample at position
total_completed (none when the corpus is exhausted,
dataset_loader.get_sample_by_index lines 97-122). -/
def get_next_sample (corpus : List (String × String)) (target totalCompleted : Nat) :
    Option (String × String) :=
  if totalCompleted ≥ target then none else corpus.get? totalCompleted

/-- Embedding of the sample-processing core of AnnotationWorker.run
(worker.py, lines 417-461) with fuel, for a run in which every model call
succeeds and no control signal arrives: select the next sample by
total_completed, annotate it through the pure outcome function
(text to (label, malformed)), append the annotation row, then call
add_completed_sample; transition to completed and stop when
get_next_sample yields none. -/
def workerRun (corpus : List (String × String))
    (annotate : String → String × Bool) (target : Nat) :
    Nat → LoopState → LoopState
  | 0, st => st
  | Nat.succ fuel, st =>
    if st.status ≠ .running then st
    else
      match get_next_sample corpus target st.progress.total_completed with
      | none => { st with status := .completed }
      | some (sid, text) =>
        let r := annotate text
        let st' : LoopState :=
          { st with
            annotations := st.annotations ++ [(sid, r.1, r.2)],
            progress := add_completed_sample sid r.1 r.2 st.progress }
        workerRun corpus annotate target fuel st'

/-- Error kinds reported by the Gemini model client
(annotator.py classifies API failures into RATE_LIMIT, INVALID_KEY, or a
passthrough message). -/
inductive GenError where
  | rateLimit
  | invalidKey
  | other (msg : String)
  deriving DecidableEq, Repr

/-- Prefix test on character lists (pattern first). -/
def seqStartsWith : List Char → List Char → Bool
  | [], _ => true
  | _ :: _, [] => false
  | a :: pat, b :: s => a = b && seqStartsWith pat s

/-- Substring test on character lists (pattern first), embedding the
Python in operator on strings used by the run loop error handler. -/
def hasSubSeq (pat : List Char) : List Char → Bool
  | [] => seqStartsWith pat []
  | c :: rest => seqStartsWith pat (c :: rest) || hasSubSeq pat rest

/-- Embedding of AnnotationWorker.annotate_sample (worker.py, lines
288-356).  Inputs: whether rate_limiter.acquire_sync returned true, the
model client output (response text plus optional error kind), and the
domain parse step as a pure function from response text to
(label-or-MALFORMED, malformed).  Returns the updated persisted worker
row together with either the raised exception message or the
(label, malformed) result.  Only the per-minute RATE_LIMIT branch writes
a status (paused) before raising. -/
def annotate_sample (now : Nat) (acquired : Bool)
    (genOut : String × Option GenError) (parse : String → String × Bool)
    (w : WorkerRow) : WorkerRow × Except String (String × Bool) :=
  if ¬acquired then (w, .error "RATE_LIMIT_TIMEOUT")
  else
    match genOut.2 with
    | some .rateLimit =>
      (update_worker_status now .paused none w, .error "RATE_LIMIT_HIT")
    | some .invalidKey => (w, .error "INVALID_API_KEY")
    | some (.other _) => (w, .ok ("MALFORMED", true))
    | none => (w, .ok (parse genOut.1))

/-- Embedding of the exception handler of AnnotationWorker.run (worker.py,
lines 483-501): an error whose text contains RATE_LIMIT sends a paused
heartbeat and breaks the loop without touching the stored status; an
INVALID_API_KEY error persists status stopped, sends a stopped heartbeat
and breaks; anything else continues with the next sample.  Returns the
worker row, the heartbeat status sent (if any), and whether the loop
exits. -/
def handle_loop_error (now : Nat) (msg : String) (w : WorkerRow) :
    WorkerRow × Option String × Bool :=
  if hasSubSeq "RATE_LIMIT".toList msg.toList then (w, some "paused", true)
  else if hasSubSeq "INVALID_API_KEY".toList msg.toList then
    (update_worker_status now .stopped none w, some "stopped", true)
  else (w, none, false)

/-- One iteration of the sample-processing body of AnnotationWorker.run
for an already-selected sample: annotate_sample followed either by the
exception handler or by save_annotation plus add_completed_sample.
Returns the worker row, the progress state, the heartbeat status sent by
the handler (if any), and whether the loop exits. -/
def loopIterSample (now : Nat) (acquired : Bool)
    (genOut : String × Option GenError) (parse : String → String × Bool)
    (sid : String) (w : WorkerRow) (progress : ProgressState) :
    WorkerRow × ProgressState × Option String × Bool :=
  match annotate_sample now acquired genOut parse w with
  | (w', .error msg) =>
    let h := handle_loop_error now msg w'
    (h.1, progress, h.2.1, h.2.2)
  | (w', .ok r) =>
    (w', add_completed_sample sid r.1 r.2 progress, none, false)

/-- Result triple of ResponseParser.parse_response (parser.py):
(label, parsing_error, validity_error). -/
abbrev PTriple := Option (List Char) × Option (List Char) × Option (List Char)

/-- Scan for the first occurrence of the opening marker of the regex
pattern matching a labelled span, returning the characters after it. -/
def findOpen : List Char → Option (List Char)
  | '<' :: '<' :: rest => some rest
  | _ :: rest => findOpen rest
  | [] => none

/-- After an opening marker, take the shortest non-empty content that is
immediately followed by the closing marker, mirroring the non-greedy
group of the span regex under DOTALL. -/
def grab : List Char → Option (List Char)
  | c :: '>' :: '>' :: _ => some [c]
  | c :: rest => (grab rest).map (fun l => c :: l)
  | [] => none

/-- Embedding of the re.search for a labelled span in parse_response
(parser.py, line 33): the leftmost match of two angle brackets, a
non-empty non-greedy content group, and two closing angle brackets. -/
def extractSpan (s : List Char) : Option (List Char) :=
  (findOpen s).bind grab

/-- Embedding of the Python str.strip() applied to the matched group
(parser.py, line 38). -/
def stripList (l : List Char) : List Char :=
  ((l.dropWhile Char.isWhitespace).reverse.dropWhile Char.isWhitespace).reverse

/-- Digits accepted by the therapeutic code pattern. -/
def taDigit (d : Char) : Bool :=
  d ∈ ['1', '2', '3', '4', '5', '6', '7', '8', '9']

/-- Attempted match of the therapeutic code pattern at the head of the
input. -/
def taAt : List Char → Option Char
  | 'T' :: 'A' :: '-' :: d :: _ => if taDigit d then some d else none
  | _ => none

/-- Embedding of re.findall for therapeutic codes (parser.py, line 79):
left-to-right scan collecting a digit at every position where the pattern
matches, advancing one character at a time.  This equals the non-greedy
findall that consumes each match whole, because two matches can never
overlap: the interior characters of a successful match are A, a hyphen
and a digit, none of which starts the pattern. -/
def findTA : List Char → List Char
  | [] => []
  | c :: rest =>
    match taAt (c :: rest) with
    | some d => d :: findTA rest
    | none => findTA rest

/-- Sorted deduplication of code digits, embedding sorted(set(codes),
key=int) of the multi-label parsers: duplicate digits removed and the
rest in ascending numeric order. -/
def taSort (l : List Char) : List Char :=
  List.insertionSort (fun a b => a.toNat ≤ b.toNat) l.dedup

/-- Joining of therapeutic codes with the separator of str.join
(parser.py, line 84). -/
def taJoin : List Char → List Char
  | [] => []
  | [c] => ['T', 'A', '-', c]
  | c :: rest => ['T', 'A', '-', c] ++ ',' :: ' ' :: taJoin rest

/-- Embedding of ResponseParser._parse_therapeutic (parser.py, lines
75-87) on the stripped span. -/
def parseTherapeutic (rawLabel : List Char) : PTriple :=
  let codes := findTA rawLabel
  if codes ≠ [] then (some (taJoin (taSort codes)), none, none)
  else (none, none, some ("No valid TA codes found: ".toList ++ rawLabel))

/-- Case-insensitive pattern prefix match returning the remaining
characters. -/
def ciPre : List Char → List Char → Option (List Char)
  | [], s => some s
  | _ :: _, [] => none
  | a :: pat, b :: s => if a.toLower = b.toLower then ciPre pat s else none

/-- Greedy skip of underscores and whitespace, embedding the optional
separator class of the urgency pattern. -/
def skipUnderscoreWs : List Char → List Char
  | c :: rest =>
    if c = '_' || c.isWhitespace then skipUnderscoreWs rest else c :: rest
  | [] => []

/-- Attempted match of the urgency pattern at the head of the input:
the word LEVEL case-insensitively, optional underscores or whitespace,
then a digit 0 to 4. -/
def levelAt (s : List Char) : Option Char :=
  match ciPre "LEVEL".toList s with
  | none => none
  | some rest =>
    match skipUnderscoreWs rest with
    | d :: _ => if d ∈ ['0', '1', '2', '3', '4'] then some d else none
    | [] => none

/-- Leftmost search for the urgency pattern (parser.py, line 66). -/
def searchLevel : List Char → Option Char
  | [] => none
  | c :: rest =>
    match levelAt (c :: rest) with
    | some d => some d
    | none => searchLevel rest

/-- Embedding of ResponseParser._parse_urgency (parser.py, lines 62-73). -/
def parseUrgency (rawLabel : List Char) : PTriple :=
  match searchLevel rawLabel with
  | some d => (some ("LEVEL_".toList ++ [d]), none, none)
  | none => (none, none, some ("Invalid urgency format: ".toList ++ rawLabel))

/-- Attempted match of the intensity pattern at the head of the input:
INT- case-insensitively then a digit 1 to 5. -/
def intAt (s : List Char) : Option Char :=
  match ciPre "INT-".toList s with
  | none => none
  | some rest =>
    match rest with
    | d :: _ => if d ∈ ['1', '2', '3', '4', '5'] then some d else none
    | [] => none

/-- Leftmost search for the intensity pattern (parser.py, line 93). -/
def searchInt : List Char → Option Char
  | [] => none
  | c :: rest =>
    match intAt (c :: rest) with
    | some d => some d
    | none => searchInt rest

/-- Embedding of ResponseParser._parse_intensity (parser.py, lines
89-100). -/
def parseIntensity (rawLabel : List Char) : PTriple :=
  match searchInt rawLabel with
  | some d => (some ("INT-".toList ++ [d]), none, none)
  | none => (none, none, some ("Invalid intensity format: ".toList ++ rawLabel))

/-- Digits accepted by the adjunct code pattern. -/
def adjDigit (d : Char) : Bool :=
  d ∈ ['1', '2', '3', '4', '5', '6', '7', '8']

/-- Attempted match of the adjunct code pattern at the head of the
input. -/
def adjAt : List Char → Option Char
  | 'A' :: 'D' :: 'J' :: '-' :: d :: _ => if adjDigit d then some d else none
  | _ => none

/-- Embedding of re.findall for adjunct codes (parser.py, line 110), as a
one-character-advance scan; matches cannot overlap because the interior
characters of a match (D, J, a hyphen, a digit) never start the
pattern. -/
def findADJ : List Char → List Char
  | [] => []
  | c :: rest =>
    match adjAt (c :: rest) with
    | some d => d :: findADJ rest
    | none => findADJ rest

/-- Joining of adjunct codes. -/
def adjJoin : List Char → List Char
  | [] => []
  | [c] => ['A', 'D', 'J', '-', c]
  | c :: rest => ['A', 'D', 'J', '-', c] ++ ',' :: ' ' :: adjJoin rest

/-- Embedding of ResponseParser._parse_adjunct (parser.py, lines
102-118): a span containing NONE case-insensitively maps to the NONE
label, otherwise the multi-label code scan. -/
def parseAdjunct (rawLabel : List Char) : PTriple :=
  if hasSubSeq "NONE".toList (rawLabel.map Char.toUpper) then
    (some "NONE".toList, none, none)
  else
    let codes := findADJ rawLabel
    if codes ≠ [] then (some (adjJoin (taSort codes)), none, none)
    else (none, none, some ("No valid ADJ codes found: ".toList ++ rawLabel))

/-- Digits accepted by the modality code pattern. -/
def modDigit (d : Char) : Bool :=
  d ∈ ['1', '2', '3', '4', '5', '6']

/-- Attempted match of the modality code pattern at the head of the
input. -/
def modAt : List Char → Option Char
  | 'M' :: 'O' :: 'D' :: '-' :: d :: _ => if modDigit d then some d else none
  | _ => none

/-- Embedding of re.findall for modality codes (parser.py, line 124), as a
one-character-advance scan; matches cannot overlap because the interior
characters of a match (O, D, a hyphen, a digit) never start the
pattern. -/
def findMOD : List Char → List Char
  | [] => []
  | c :: rest =>
    match modAt (c :: rest) with
    | some d => d :: findMOD rest
    | none => findMOD rest

/-- Joining of modality codes. -/
def modJoin : List Char → List Char
  | [] => []
  | [c] => ['M', 'O', 'D', '-', c]
  | c :: rest => ['M', 'O', 'D', '-', c] ++ ',' :: ' ' :: modJoin rest

/-- Embedding of ResponseParser._parse_modality (parser.py, lines
120-132). -/
def parseModality (rawLabel : List Char) : PTriple :=
  let codes := findMOD rawLabel
  if codes ≠ [] then (some (modJoin (taSort codes)), none, none)
  else (none, none, some ("No valid MOD codes found: ".toList ++ rawLabel))

/-- Supported labelling domains (worker.py line 64, parser.py dispatch). -/
inductive Domain where
  | urgency
  | therapeutic
  | intensity
  | adjunct
  | modality
  | redressal
  deriving DecidableEq, Repr

/-- Embedding of ResponseParser.parse_response (parser.py, lines 17-60).
The redressal branch builds on the external json library, so
_parse_redressal is passed in as a function parameter; every other branch
is embedded concretely.  A response without a labelled span yields the
parsing error before any domain dispatch. -/
def parse_response (redressal : List Char → PTriple) (responseText : List Char)
    (domain : Domain) : PTriple :=
  match extractSpan responseText with
  | none => (none, some "Could not find << >> tags in response".toList, none)
  | some span =>
    let rawLabel := stripList span
    match domain with
    | .urgency => parseUrgency rawLabel
    | .therapeutic => parseTherapeutic rawLabel
    | .intensity => parseIntensity rawLabel
    | .adjunct => parseAdjunct rawLabel
    | .modality => parseModality rawLabel
    | .redressal => redressal rawLabel

/-- Failure points of atomic_write_json (file_operations.py, lines
12-56): the ensure_directory call, the temporary-file creation, the
serialize-flush-fsync block, and the final os.replace. -/
inductive WStep where
  | mkdirStep
  | mktempStep
  | writeStep
  | replaceStep
  deriving DecidableEq, Repr

/-- Embedding of atomic_write_json (file_operations.py, lines 12-56) over
a filesystem modelled as a map from paths to contents.  The serialized
payload is the string ser, tmp is the fresh sibling name chosen by
NamedTemporaryFile, and fail injects an exception at one of the four
failure points (none for a clean run).  A mkdir failure happens before
the try block; a creation failure leaves temp_file unset so the cleanup
is skipped; a failure during the write or the replace triggers the
cleanup that removes the temporary file.  os.replace is atomic: it either
installs the temporary file over the target or changes nothing. -/
def atomic_write_json (ser : String) (path tmp : String) (fail : Option WStep)
    (fs : String → Option String) :
    Except String Unit × (String → Option String) :=
  if fail = some .mkdirStep then (.error "io_error", fs)
  else if fail = some .mktempStep then (.error "Failed to write", fs)
  else
    let fsTmp : String → Option String :=
      fun q => if q = tmp then some ser else fs q
    if fail = some .writeStep ∨ fail = some .replaceStep then
      (.error "Failed to write", fun q => if q = tmp then none else fsTmp q)
    else
      (.ok (),
       fun q => if q = path then some ser
                else if q = tmp then none
                else fsTmp q)

/-- Embedding of atomic_read_json (file_operations.py, lines 59-89).
The json.load call is the parameter jparse, returning none exactly when
the json library would raise JSONDecodeError.  A missing file and a file
with malformed content both map to none. -/
def atomic_read_json {D : Type} (jparse : String → Option D)
    (fs : String → Option String) (path : String) : Option D :=
  match fs path with
  | none => none
  | some s => jparse s

/-- Folding a list of add_completed_sample calls, each given as
(sample_id, label, malformed), over a progress state. -/
def addCalls (s : ProgressState) (calls : List (String × String × Bool)) :
    ProgressState :=
  calls.foldl (fun st c => add_completed_sample c.1 c.2.1 c.2.2 st) s

/-- Concrete worker row used by the concrete-input theorems: enabled,
target 3, currently running with pid 5. -/
def sampleWorker : WorkerRow :=
  { annotator_id := 1, domain := "urgency", enabled := true,
    target_count := 3, status := .running, pid := some 5,
    started_at := some 10, stopped_at := none, last_updated := some 10,
    total_completed := 0, total_malformed := 0, samples_per_min := 0,
    last_speed_check := none }

/-- Three-sample corpus of the malformed-tolerance scenario. -/
def corpus0 : List (String × String) :=
  [("s1", "t1"), ("s2", "t2"), ("s3", "t3")]

/-- Annotation outcome of the malformed-tolerance scenario: the parser
succeeds on every text except t2, where it reports a validity error, so
the worker records label MALFORMED with the malformed flag. -/
def annotate0 : String → String × Bool :=
  fun t => if t = "t2" then ("MALFORMED", true) else ("L_" ++ t, false)

/-- Fresh loop state at worker start. -/
def loopInit : LoopState :=
  { progress := { rows := [], total_completed := 0, total_malformed := 0 },
    status := .running, annotations := [] }

/-- Completed-sample rows after the scenario worker has processed s1
(well-formed) and s2 (malformed) once. -/
def rowsS1S2 : List (String × String × Bool) :=
  [("s1", "L_t1", false), ("s2", "MALFORMED", true)]

/-- Loop state in which the scenario worker is stuck: one well-formed
completion, m malformed completions so far, annotation log anns. -/
def stuckState (m : Nat) (anns : List (String × String × Bool)) : LoopState :=
  { progress := { rows := rowsS1S2, total_completed := 1, total_malformed := m },
    status := .running, annotations := anns }

/-- Persisted rate-limiter state on the evening of 2026-10-11 with the
daily cap (2 in the concrete theorem) fully consumed. -/
def rlDay0 : RLState :=
  { tokens := 5, last_refill := 0, requests_today := 2,
    day_start := "2026-10-11", total_requests := 2, last_request := none }

/-- Prompt overlay state in which all three layers exist with pairwise
distinct contents. -/
def prompt0 : PromptFS :=
  { activeVersion := some "V", overrideLayer := some "O", baseLayer := some "B" }

/-- Trivial redressal stand-in used to instantiate parse_response at
concrete inputs of the non-redressal domains. -/
def redr0 : List Char → PTriple := fun _ => (none, none, none)

/-- Total ordering instance for the digit sort of the multi-label
parsers. -/
instance charNatLeTotal : IsTotal Char (fun a b => a.toNat ≤ b.toNat) :=
  ⟨fun a b => Nat.le_total a.toNat b.toNat⟩

/-- Transitivity instance for the digit sort. -/
instance charNatLeTrans : IsTrans Char (fun a b => a.toNat ≤ b.toNat) :=
  ⟨fun _ _ _ h1 h2 => Nat.le_trans h1 h2⟩

/-- Antisymmetry instance for the digit sort. -/
instance charNatLeAntisymm : IsAntisymm Char (fun a b => a.toNat ≤ b.toNat) :=
  ⟨fun a b h1 h2 => by
    have h : a.toNat = b.toNat := Nat.le_antisymm h1 h2
    have h2 := congrArg Char.ofNat h
    rwa [Char.ofNat_toNat, Char.ofNat_toNat] at h2⟩

theorem addCalls_counter_sum (calls : List (String × String × Bool))
    (s : ProgressState) :
    (addCalls s calls).total_completed + (addCalls s calls).total_malformed
      = s.total_completed + s.total_malformed + calls.length := by
  induction calls generalizing s with
  | nil => simp [addCalls]
  | cons c cs ih =>
    have h := ih (add_completed_sample c.1 c.2.1 c.2.2 s)
    have hstep : (add_completed_sample c.1 c.2.1 c.2.2 s).total_completed
        + (add_completed_sample c.1 c.2.1 c.2.2 s).total_malformed
        = s.total_completed + s.total_malformed + 1 := by
      cases hm : c.2.2 <;> simp [add_completed_sample, hm] <;> omega
    simp only [addCalls, List.foldl_cons, List.length_cons] at h ⊢
    omega

theorem add_rows_eq (sid label : String) (m : Bool) (s : ProgressState) :
    (add_completed_sample sid label m s).rows
      = if hasSample s.rows sid then s.rows else s.rows ++ [(sid, label, m)] := by
  cases m <;> simp [add_completed_sample]

theorem hasSample_append (rows : List (String × String × Bool))
    (r : String × String × Bool) (sid : String) :
    hasSample (rows ++ [r]) sid = (hasSample rows sid || decide (r.1 = sid)) := by
  simp [hasSample, List.any_append]

theorem addCalls_rows_len (calls : List (String × String × Bool))
    (s : ProgressState) (hnd : (calls.map (fun c => c.1)).Nodup)
    (hfresh : ∀ c ∈ calls, hasSample s.rows c.1 = false) :
    (addCalls s calls).rows.length = s.rows.length + calls.length := by
  induction calls generalizing s with
  | nil => simp [addCalls]
  | cons c cs ih =>
    have hc : hasSample s.rows c.1 = false := hfresh c (by simp)
    have hrows : (add_completed_sample c.1 c.2.1 c.2.2 s).rows
        = s.rows ++ [(c.1, c.2.1, c.2.2)] := by
      rw [add_rows_eq, hc]
      simp
    have hnd' : (cs.map (fun c => c.1)).Nodup := by
      simpa using hnd.of_cons
    have hfresh' : ∀ c' ∈ cs, hasSample (add_completed_sample c.1 c.2.1 c.2.2 s).rows c'.1 = false := by
      intro c' hmem
      rw [hrows, hasSample_append, hfresh c' (by simp [hmem])]
      have hne : c.1 ≠ c'.1 := by
        simp only [List.map_cons, List.nodup_cons, List.mem_map] at hnd
        intro he
        exact hnd.1 ⟨c', hmem, he.symm⟩
      simp [hne]
    have h := ih (add_completed_sample c.1 c.2.1 c.2.2 s) hnd' hfresh'
    simp only [addCalls, List.foldl_cons, List.length_cons] at h ⊢
    rw [h, hrows]
    simp
    omega

/-- C1 counterexample: calling add_completed_sample twice with the same
(worker, sample_id) pair leaves one CompletedSample row but increments the
counters twice, so the counter sum differs from the row count and the
repeated call did change a counter. -/
theorem C1_counterexample :
    (addCalls { rows := [], total_completed := 0, total_malformed := 0 }
        [("s1", "L", false), ("s1", "L", false)]).total_completed
      + (addCalls { rows := [], total_completed := 0, total_malformed := 0 }
        [("s1", "L", false), ("s1", "L", false)]).total_malformed
      ≠ (addCalls { rows := [], total_completed := 0, total_malformed := 0 }
        [("s1", "L", false), ("s1", "L", false)]).rows.length := by
  decide

/-- C1 (amended): every add_completed_sample call increments exactly one
of the two counters whether or not the INSERT OR IGNORE inserted a row, so
after any sequence of calls the counter sum equals the number of calls;
it equals the number of CompletedSample rows exactly in runs where no call
repeats an already-present (worker, sample_id) pair. -/
theorem C1_add_completed_sample_counters (s : ProgressState)
    (calls : List (String × String × Bool)) :
    ((addCalls s calls).total_completed + (addCalls s calls).total_malformed
      = s.total_completed + s.total_malformed + calls.length)
    ∧ ((calls.map (fun c => c.1)).Nodup →
       (∀ c ∈ calls, hasSample s.rows c.1 = false) →
       (addCalls s calls).rows.length = s.rows.length + calls.length) :=
  ⟨addCalls_counter_sum calls s, fun h1 h2 => addCalls_rows_len calls s h1 h2⟩

/-- C1 witness: two fresh samples, one well-formed and one malformed,
yield counter sum two and two rows. -/
theorem C1_witness :
    (addCalls { rows := [], total_completed := 0, total_malformed := 0 }
        [("a", "L1", false), ("b", "L2", true)]).total_completed
      + (addCalls { rows := [], total_completed := 0, total_malformed := 0 }
        [("a", "L1", false), ("b", "L2", true)]).total_malformed = 2
    ∧ (addCalls { rows := [], total_completed := 0, total_malformed := 0 }
        [("a", "L1", false), ("b", "L2", true)]).rows.length = 2 := by
  have h := C1_add_completed_sample_counters
    { rows := [], total_completed := 0, total_malformed := 0 }
    [("a", "L1", false), ("b", "L2", true)]
  exact ⟨by simpa using h.1, by simpa using h.2 (by decide) (by decide)⟩

theorem workerRun_stuck (fuel : Nat) :
    ∀ (m : Nat) (anns : List (String × String × Bool)),
    (workerRun corpus0 annotate0 3 fuel (stuckState m anns)).status = .running
    ∧ (workerRun corpus0 annotate0 3 fuel (stuckState m anns)).progress.total_completed = 1 := by
  induction fuel with
  | zero => intro m anns; exact ⟨rfl, rfl⟩
  | succ n ih =>
    intro m anns
    have hstep : workerRun corpus0 annotate0 3 (n + 1) (stuckState m anns)
        = workerRun corpus0 annotate0 3 n
            (stuckState (m + 1) (anns ++ [("s2", "MALFORMED", true)])) := rfl
    rw [hstep]
    exact ih (m + 1) (anns ++ [("s2", "MALFORMED", true)])

/-- C2: the malformed-tolerance scenario does not terminate.  With the
corpus s1 s2 s3, target 3, and a parser that deterministically reports a
validity error on t2, the worker loop never reaches status completed and
total_completed never exceeds 1, because get_next_sample selects the
sample at position total_completed and a malformed completion does not
increment total_completed, so the worker re-selects s2 on every iteration
(while total_malformed grows without bound). -/
theorem C2_malformed_never_completes (fuel : Nat) :
    (workerRun corpus0 annotate0 3 fuel loopInit).status ≠ .completed
    ∧ (workerRun corpus0 annotate0 3 fuel loopInit).progress.total_completed ≤ 1 := by
  match fuel with
  | 0 => exact ⟨by decide, by decide⟩
  | 1 => exact ⟨by decide, by decide⟩
  | (n + 2) =>
    have h : workerRun corpus0 annotate0 3 (n + 2) loopInit
        = workerRun corpus0 annotate0 3 n
            (stuckState 1 [("s1", "L_t1", false), ("s2", "MALFORMED", true)]) := rfl
    have h2 := workerRun_stuck n 1 [("s1", "L_t1", false), ("s2", "MALFORMED", true)]
    constructor
    · rw [h, h2.1]; decide
    · rw [h, h2.2]

/-- C3: evaluation of the acquire path at the failing input.  On
2026-10-12 with requests-per-day 2 and the persisted state left from
2026-10-11 (requests_today already at the cap), can_make_request grants
the request — its daily-rollover reset exists only on an in-memory copy
that is never saved — and consume_token then reloads the stale persisted
counter and writes back requests_today = 3 > 2, still under
day_start 2026-10-11.  The persisted requests_today therefore exceeds RPD,
and the reset was never persisted. -/
theorem C3_daily_cap_exceeded :
    (acquireStep 15 2 5 0 "2026-10-12" rlDay0).1 = true
    ∧ (acquireStep 15 2 5 0 "2026-10-12" rlDay0).2.requests_today = 3
    ∧ ¬((acquireStep 15 2 5 0 "2026-10-12" rlDay0).2.requests_today ≤ 2)
    ∧ (acquireStep 15 2 5 0 "2026-10-12" rlDay0).2.day_start = "2026-10-11" := by
  have hs : ("2026-10-11" : String) ≠ "2026-10-12" := by decide
  norm_num [acquireStep, can_make_request, refill_tokens, check_daily_limit,
    consume_token, rlDay0, hs]

/-- C4 counterexample: a pause transition of a running worker with pid 5
keeps the pid, so afterwards the pid is non-null while the status is
paused, refuting the biconditional pid-non-null iff status-running. -/
theorem C4_counterexample :
    ¬(((update_worker_status 20 .paused none sampleWorker).pid ≠ none)
       ↔ ((update_worker_status 20 .paused none sampleWorker).status = .running)) := by
  decide

/-- C4 (amended): update_worker_status sets the status unconditionally;
it clears pid and stamps stopped_at exactly for stopped, completed and
crashed; it sets pid (and started_at) for running with a truthy pid; and
it leaves pid untouched for paused and not_started as well as for running
without a pid, so the invariant pid-non-null iff status-running is not
preserved by a pause transition or by a running transition with no pid
supplied. -/
theorem C4_update_worker_status_pid (now : Nat) (s : WStatus) (p : Option Nat)
    (w : WorkerRow) :
    (update_worker_status now s p w).status = s
    ∧ (s = .stopped ∨ s = .completed ∨ s = .crashed →
        (update_worker_status now s p w).pid = none
        ∧ (update_worker_status now s p w).stopped_at = some now)
    ∧ (s = .running → pidTruthy p = true →
        (update_worker_status now s p w).pid = p
        ∧ (update_worker_status now s p w).started_at = some now)
    ∧ (s = .paused ∨ s = .not_started →
        (update_worker_status now s p w).pid = w.pid)
    ∧ (s = .running → pidTruthy p = false →
        (update_worker_status now s p w).pid = w.pid) := by
  cases s <;> cases hp : pidTruthy p <;>
    simp [update_worker_status, hp]

/-- C4 witness: the amended theorem applied to the pause transition of the
concrete running worker with pid 5. -/
theorem C4_witness :
    (update_worker_status 20 .paused none sampleWorker).pid = some 5
    ∧ (update_worker_status 20 .paused none sampleWorker).status = .paused :=
  ⟨((C4_update_worker_status_pid 20 .paused none sampleWorker).2.2.2.1
      (Or.inl rfl)).trans rfl,
   (C4_update_worker_status_pid 20 .paused none sampleWorker).1⟩

/-- C5 counterexample: with the stored status running and a heartbeat
1 day old (far beyond the 2-minute timeout), get_worker_status reports
crashed in the returned snapshot while the stored row it leaves behind
still says running — the row is not updated to crashed in the same
transaction. -/
theorem C5_counterexample :
    ((get_worker_status 1 sampleWorker (some 0)).1.status = .crashed)
    ∧ ((get_worker_status 1 sampleWorker (some 0)).2.1.status = .running) := by
  norm_num [get_worker_status, heartbeatAlive, sampleWorker]

/-- C5 (amended): get_worker_status never modifies the store — it returns
the stored row and heartbeat unchanged — and merely derives crashed in the
snapshot when the stored status is running and the heartbeat is stale or
missing; the store-side crash transition exists only in
get_all_running_workers, which checks process liveness (not heartbeat
freshness): it persists crashed for a running worker whose process is
dead and leaves a running worker with a live process untouched even if
its heartbeat is stale. -/
theorem C5_derived_status (now : ℚ) (w : WorkerRow) (hb : Option ℚ)
    (alive : Nat → Bool) (now2 : Nat) (ws : List WorkerRow) (p : Nat)
    (w2 : WorkerRow) :
    ((get_worker_status now w hb).2 = (w, hb))
    ∧ (w.status = .running → heartbeatAlive now hb = false →
        (get_worker_status now w hb).1.status = .crashed)
    ∧ ((get_all_running_workers alive now2 ws).2 = ws.map (garwUpdate alive now2))
    ∧ (w2.status = .running → w2.pid = some p → alive p = false →
        (garwUpdate alive now2 w2).status = .crashed
        ∧ (garwUpdate alive now2 w2).pid = none)
    ∧ (w2.status = .running → w2.pid = some p → alive p = true →
        garwUpdate alive now2 w2 = w2) := by
  refine ⟨rfl, ?_, rfl, ?_, ?_⟩
  · intro h1 h2
    simp [get_worker_status, h1, h2]
  · intro h1 h2 h3
    simp [garwUpdate, garwSelected, garwProcAlive, h1, h2, h3,
      update_worker_status]
  · intro h1 h2 h3
    simp [garwUpdate, garwSelected, garwProcAlive, h1, h2, h3]

/-- C5 witness: the amended theorem applied at the stale-heartbeat worker
and at a dead-process worker. -/
theorem C5_witness :
    (get_worker_status 1 sampleWorker (some 0)).1.status = .crashed
    ∧ (garwUpdate (fun _ => false) 7 sampleWorker).status = .crashed := by
  have h := C5_derived_status 1 sampleWorker (some 0) (fun _ => false) 7 []
    5 sampleWorker
  exact ⟨h.2.1 rfl (by norm_num [heartbeatAlive]), (h.2.2.2.1 rfl rfl rfl).1⟩

/-- C6 counterexample: when rate-limit acquisition times out (acquire_sync
returns false), the loop iteration exits but the persisted worker status
is left at running, not paused: only the final heartbeat says paused. -/
theorem C6_counterexample :
    ((loopIterSample 20 false ("", none) (fun _ => ("", false)) "s2"
        sampleWorker
        { rows := [("s1", "L", false)], total_completed := 1,
          total_malformed := 0 }).2.2.2 = true)
    ∧ ((loopIterSample 20 false ("", none) (fun _ => ("", false)) "s2"
        sampleWorker
        { rows := [("s1", "L", false)], total_completed := 1,
          total_malformed := 0 }).1.status = .running)
    ∧ ((loopIterSample 20 false ("", none) (fun _ => ("", false)) "s2"
        sampleWorker
        { rows := [("s1", "L", false)], total_completed := 1,
          total_malformed := 0 }).1.status ≠ .paused) := by
  decide

/-- C6 (amended): a per-minute rate limit persists status paused (written
by annotate_sample before raising) and exits; a rate-limit acquisition
timeout or daily-cap exhaustion exits with the stored row completely
unchanged (only the heartbeat reports paused); an invalid credential
persists status stopped and exits; in all three cases the progress state
(CompletedSample rows and both counters) is untouched, and the paused and
stopped updates leave the counters of the worker row unchanged. -/
theorem C6_error_paths (now : Nat) (text : String)
    (genOut : String × Option GenError) (parse : String → String × Bool)
    (sid : String) (w : WorkerRow) (progress : ProgressState) :
    (loopIterSample now true (text, some .rateLimit) parse sid w progress
       = (update_worker_status now .paused none w, progress, some "paused", true)
     ∧ (update_worker_status now .paused none w).status = .paused
     ∧ (update_worker_status now .paused none w).total_completed = w.total_completed
     ∧ (update_worker_status now .paused none w).total_malformed = w.total_malformed)
    ∧ (loopIterSample now false genOut parse sid w progress
       = (w, progress, some "paused", true))
    ∧ (loopIterSample now true (text, some .invalidKey) parse sid w progress
       = (update_worker_status now .stopped none w, progress, some "stopped", true)
     ∧ (update_worker_status now .stopped none w).status = .stopped
     ∧ (update_worker_status now .stopped none w).total_completed = w.total_completed
     ∧ (update_worker_status now .stopped none w).total_malformed = w.total_malformed) := by
  refine ⟨⟨?_, ?_, ?_, ?_⟩, ?_, ⟨?_, ?_, ?_, ?_⟩⟩ <;>
    simp +decide [loopIterSample, annotate_sample, handle_loop_error,
      update_worker_status, pidTruthy]

theorem find_upsert (k : String) (v : Nat) (l : List (String × Nat)) :
    (upsertSystemState k v l).find? (fun p => p.1 = k) = some (k, v) := by
  induction l with
  | nil => simp [upsertSystemState, List.find?]
  | cons p l ih =>
    by_cases hp : p.1 = k
    · rw [show upsertSystemState k v (p :: l)
          = upsertSystemState k v l from by simp [upsertSystemState, hp]]
      exact ih
    · rw [show upsertSystemState k v (p :: l)
          = p :: upsertSystemState k v l from by simp [upsertSystemState, hp]]
      rw [show (p :: upsertSystemState k v l).find? (fun q => q.1 = k)
          = (upsertSystemState k v l).find? (fun q => q.1 = k) from by
        simp [List.find?, hp]]
      exact ih

/-- C7: factory_reset empties the CompletedSample, Annotation, Heartbeat,
WorkerEvent and RateLimiterState tables, maps every worker row through the
reset that sets status not_started, clears pid, started_at and stopped_at,
zeroes total_completed, total_malformed and samples_per_min while
preserving annotator_id, domain, enabled and target_count, and records the
reset timestamp under the last_factory_reset key. -/
theorem C7_factory_reset (now : Nat) (db : DBState) :
    ((factory_reset now db).completed_samples = []
     ∧ (factory_reset now db).annotations = []
     ∧ (factory_reset now db).heartbeats = []
     ∧ (factory_reset now db).worker_events = []
     ∧ (factory_reset now db).rate_limiter_state = [])
    ∧ (factory_reset now db).workers = db.workers.map (resetWorkerRow now)
    ∧ (∀ w : WorkerRow,
        (resetWorkerRow now w).enabled = w.enabled
        ∧ (resetWorkerRow now w).target_count = w.target_count
        ∧ (resetWorkerRow now w).annotator_id = w.annotator_id
        ∧ (resetWorkerRow now w).domain = w.domain
        ∧ (resetWorkerRow now w).status = .not_started
        ∧ (resetWorkerRow now w).pid = none
        ∧ (resetWorkerRow now w).started_at = none
        ∧ (resetWorkerRow now w).stopped_at = none
        ∧ (resetWorkerRow now w).total_completed = 0
        ∧ (resetWorkerRow now w).total_malformed = 0
        ∧ (resetWorkerRow now w).samples_per_min = 0)
    ∧ lookupSystemState "last_factory_reset" (factory_reset now db).system_state
        = some now := by
  refine ⟨⟨rfl, rfl, rfl, rfl, rfl⟩, rfl, ?_, ?_⟩
  · intro w
    exact ⟨rfl, rfl, rfl, rfl, rfl, rfl, rfl, rfl, rfl, rfl, rfl⟩
  · show lookupSystemState "last_factory_reset"
      (upsertSystemState "last_factory_reset" now db.system_state) = some now
    rw [lookupSystemState, find_upsert]
    rfl

theorem taSort_eq_of_toFinset_eq {l₁ l₂ : List Char}
    (h : l₁.toFinset = l₂.toFinset) : taSort l₁ = taSort l₂ := by
  have hp : List.Perm l₁.dedup l₂.dedup := List.toFinset_eq_iff_perm_dedup.mp h
  exact List.eq_of_perm_of_sorted
    (((List.perm_insertionSort _ _).trans hp).trans
      (List.perm_insertionSort _ _).symm)
    (List.sorted_insertionSort _ _) (List.sorted_insertionSort _ _)

/-- C8: a response with no labelled span yields the parsing error for
every supported domain and every redressal instantiation; and for the
multi-label therapeutic domain the successful label is canonical — sorted
by code number and deduplicated — so two responses whose extracted spans
contain the same non-empty set of TA codes, in any order and with any
multiplicity, parse to the identical result. -/
theorem C8_parser_canonical :
    (∀ (redr : List Char → PTriple) (raw : List Char) (d : Domain),
      extractSpan raw = none →
      parse_response redr raw d
        = (none, some "Could not find << >> tags in response".toList, none))
    ∧ (∀ (redr : List Char → PTriple) (t1 t2 s1 s2 : List Char),
      extractSpan t1 = some s1 → extractSpan t2 = some s2 →
      (findTA (stripList s1)).toFinset = (findTA (stripList s2)).toFinset →
      findTA (stripList s1) ≠ [] →
      parse_response redr t1 .therapeutic = parse_response redr t2 .therapeutic) := by
  constructor
  · intro redr raw d h
    simp [parse_response, h]
  · intro redr t1 t2 s1 s2 h1 h2 hset hne
    have hne2 : findTA (stripList s2) ≠ [] := by
      intro he
      rw [he] at hset
      exact hne ((List.toFinset_eq_empty_iff _).mp (by simpa using hset))
    simp only [parse_response, h1, h2, parseTherapeutic, hne, hne2,
      ne_eq, not_false_eq_true, if_true]
    rw [taSort_eq_of_toFinset_eq hset]

/-- C8 witness: a span-free response parses to the parse error, and two
responses whose spans hold the codes 1 and 2 in different orders and
multiplicities parse identically. -/
theorem C8_witness :
    parse_response redr0 "no tags here".toList .urgency
      = (none, some "Could not find << >> tags in response".toList, none)
    ∧ parse_response redr0 "<<TA-2, TA-1, TA-2>>".toList .therapeutic
      = parse_response redr0 "x<<TA-1 TA-2 TA-1>>y".toList .therapeutic := by
  constructor
  · exact C8_parser_canonical.1 redr0 "no tags here".toList .urgency (by decide)
  · exact C8_parser_canonical.2 redr0 "<<TA-2, TA-1, TA-2>>".toList
      "x<<TA-1 TA-2 TA-1>>y".toList
      "TA-2, TA-1, TA-2".toList "TA-1 TA-2 TA-1".toList
      (by decide) (by decide) (by decide) (by decide)

/-- C9 counterexample: with all three overlay layers present and pairwise
distinct, the worker loads the legacy override, not the active version, so
the active-version entry does not take precedence in the worker. -/
theorem C9_counterexample :
    prompt0.activeVersion = some "V"
    ∧ load_prompt prompt0 = .ok "O"
    ∧ load_prompt prompt0 ≠ .ok "V" :=
  ⟨rfl, rfl, by simp [load_prompt, prompt0]⟩

/-- C9 (amended): the worker consults only two overlay layers — the
legacy per-annotator override, then the base template — loading the first
that exists and failing when the base is missing; the active-version
reference is consulted only by the configuration service read
(ConfigService.get_prompt), where it does take precedence. -/
theorem C9_prompt_resolution (p : PromptFS) (c : String) :
    (p.overrideLayer = some c → load_prompt p = .ok c)
    ∧ (p.overrideLayer = none → p.baseLayer = some c → load_prompt p = .ok c)
    ∧ (p.overrideLayer = none → p.baseLayer = none → load_prompt p = .error ())
    ∧ (p.activeVersion = some c → config_get_prompt p = .ok c) := by
  refine ⟨?_, ?_, ?_, ?_⟩ <;> intros <;>
    simp [load_prompt, config_get_prompt, *]

/-- C9 witness: the amended theorem applied at the three-layer overlay
state. -/
theorem C9_witness :
    load_prompt prompt0 = .ok "O" ∧ config_get_prompt prompt0 = .ok "V" :=
  ⟨(C9_prompt_resolution prompt0 "O").1 rfl,
   (C9_prompt_resolution prompt0 "V").2.2.2 rfl⟩

/-- C10: failure atomicity of atomic_write_json — whatever step raises,
the target path retains exactly its previous content and the temporary
file is absent afterwards; a clean run installs the payload at the
target; and atomic_read_json returns none both for a missing file and for
one whose content the json parser rejects. -/
theorem C10_atomic_file_ops {D : Type} (jparse : String → Option D)
    (ser path tmp : String) (fail : Option WStep) (fs : String → Option String)
    (p s : String) (msg : String) :
    (tmp ≠ path → fs tmp = none →
      (((atomic_write_json ser path tmp fail fs).1 = .error msg →
          (atomic_write_json ser path tmp fail fs).2 path = fs path
          ∧ (atomic_write_json ser path tmp fail fs).2 tmp = none)
        ∧ (fail = none →
          (atomic_write_json ser path tmp fail fs).2 path = some ser)))
    ∧ (fs p = none → atomic_read_json jparse fs p = none)
    ∧ (fs p = some s → jparse s = none → atomic_read_json jparse fs p = none) := by
  refine ⟨?_, ?_, ?_⟩
  · intro htp htmp
    constructor
    · intro herr
      rcases fail with _ | st
      · simp [atomic_write_json] at herr
      · rcases st <;>
          simp_all [atomic_write_json, htp, Ne.symm htp]
    · intro hf
      subst hf
      simp [atomic_write_json]
  · intro h
    simp [atomic_read_json, h]
  · intro h1 h2
    simp [atomic_read_json, h1, h2]

/-- C10 witness: a write that fails during the serialize-flush-fsync step
leaves the pre-existing target content intact and no temporary file, and
the reads of a missing and a malformed file both return none. -/
theorem C10_witness :
    ((atomic_write_json "new" "p" "t" (some .writeStep)
        (fun q => if q = "p" then some "old" else none)).2 "p" = some "old")
    ∧ ((atomic_write_json "new" "p" "t" (some .writeStep)
        (fun q => if q = "p" then some "old" else none)).2 "t" = none)
    ∧ (atomic_read_json (fun _ => (none : Option Nat))
        (fun q => if q = "p" then some "old" else none) "q" = none)
    ∧ (atomic_read_json (fun _ => (none : Option Nat))
        (fun q => if q = "p" then some "old" else none) "p" = none) := by
  have h := C10_atomic_file_ops (fun _ => (none : Option Nat)) "new" "p" "t"
    (some .writeStep) (fun q => if q = "p" then some "old" else none)
    "q" "old" "Failed to write"
  have h2 := C10_atomic_file_ops (fun _ => (none : Option Nat)) "new" "p" "t"
    (some .writeStep) (fun q => if q = "p" then some "old" else none)
    "p" "old" "Failed to write"
  have hw := (h.1 (by decide) (by simp)).1 (by simp [atomic_write_json])
  exact ⟨by simpa using hw.1, hw.2, h.2.1 (by simp), h2.2.2 (by simp) rfl⟩

end MHA
